import Mathlib

/-!
Shallow embedding of the Learner State & Intervention Decision Engine
of the TreeHacks-2026 repository, together with proofs about the claims
of its specification.

Sources embedded:
* `agents/config.py` — numeric configuration constants.
* `agents/learner_model.py` — `ConfidenceWeightedBKT` (mastery tracker).
* `agents/confusion_detector.py` — `ConfusionDetector` (signal fusion).
* `agents/dialogue_session.py` — `DialogueSession` (dialogue state machine).
* `agents/orchestrator.py` — `poll_context` intervention scheduling loop.

Python floats are modelled as exact rationals (`ℚ`); the arithmetic of the
source stays well inside the exactly-representable range, and every claim
is about order comparisons that are exact in ℚ.  Wall-clock timestamps are
threaded explicitly where behaviour depends on them (`elapsed`, `now`) and
omitted from records where they are write-only bookkeeping
(`created_at`, `updated_at`, per-observation / per-turn timestamps).
-/

namespace TreeHacks

/-! ## Configuration constants (`agents/config.py`) -/

def BKT_DEFAULT_PRIOR : ℚ := 3/10
def BKT_P_LEARN : ℚ := 1/10
def BKT_P_GUESS : ℚ := 1/4
def BKT_P_SLIP : ℚ := 1/10
def BKT_MASTERY_THRESHOLD : ℚ := 17/20

def CONFUSION_THRESHOLD : ℚ := 21/50
def INTERVENTION_COOLDOWN_SECONDS : ℚ := 30

def MAX_DIALOGUE_TURNS : ℕ := 10
def MAX_DIALOGUE_DURATION_SECONDS : ℚ := 300
def CLOSING_COMPREHENSION_STREAK : ℕ := 3
def CLOSING_COMPREHENSION_THRESHOLD : ℚ := 7/10

def WEIGHT_TYPING : ℚ := 3/20
def WEIGHT_DELETION : ℚ := 1/10
def WEIGHT_PAUSE : ℚ := 3/20
def WEIGHT_REREAD : ℚ := 1/10
def WEIGHT_VERBAL : ℚ := 3/20
def WEIGHT_TOUCH : ℚ := 1/10
def WEIGHT_GEMINI : ℚ := 1/4

/-! ## Small helpers shared by the embeddings -/

/-- Python truthiness of an `Optional[str]` value: `None` and `""` are falsy. -/
def truthyStr : Option String → Bool
  | none => false
  | some s => !(s = "")

/-- The last `n` elements of a list — Python slice `l[-n:]`
(the whole list when it has fewer than `n` elements). -/
def lastSlice (n : ℕ) (l : List α) : List α := l.drop (l.length - n)

/-! ## `ConfidenceWeightedBKT` (`agents/learner_model.py`) -/

/-- One entry of a concept's append-only observation log
(`timestamp` and the `p_know_before`/`p_know_after` debug fields are
write-only in the source and omitted here). -/
structure BKTObs where
  correct : Bool
  confidence : ℚ
  source : String
  deriving DecidableEq, Repr

/-- The per-concept record stored in `ConfidenceWeightedBKT.concepts`. -/
structure Concept where
  pKnow : ℚ
  pLearn : ℚ
  pGuess : ℚ
  pSlip : ℚ
  observations : List BKTObs
  deriving DecidableEq, Repr

/-- The fresh concept record built by `init_concept`. -/
def freshConcept (prior : ℚ) : Concept :=
  { pKnow := prior
    pLearn := BKT_P_LEARN
    pGuess := BKT_P_GUESS
    pSlip := BKT_P_SLIP
    observations := [] }

/-- The `self.concepts` dict, as an insertion-ordered association list. -/
def BKT := List (String × Concept)

/-- Dict lookup `self.concepts[cid]` / `cid in self.concepts`. -/
def lookupC : BKT → String → Option Concept
  | [], _ => none
  | (k, c) :: rest, cid => if k = cid then some c else lookupC rest cid

/-- Dict write `self.concepts[cid] = c`: replaces in place, appends if new. -/
def setC : BKT → String → Concept → BKT
  | [], cid, c => [(cid, c)]
  | (k, c0) :: rest, cid, c =>
      if k = cid then (cid, c) :: rest else (k, c0) :: setC rest cid c

/-- Embeds `ConfidenceWeightedBKT.init_concept`. -/
def initConcept (m : BKT) (cid : String) (prior : ℚ) : BKT :=
  match lookupC m cid with
  | some _ => m
  | none => setC m cid (freshConcept prior)

/-- Step 1 of `update`: the unweighted Bayesian posterior
(lines 64–82 of `learner_model.py`), with the zero-denominator guard. -/
def bktPosterior (c : Concept) (correct : Bool) : ℚ :=
  if correct then
    let pCorrectGivenKnow := 1 - c.pSlip
    let pCorrectGivenNotKnow := c.pGuess
    let pCorrect := pCorrectGivenKnow * c.pKnow + pCorrectGivenNotKnow * (1 - c.pKnow)
    if 0 < pCorrect then (pCorrectGivenKnow * c.pKnow) / pCorrect else c.pKnow
  else
    let pIncorrectGivenKnow := c.pSlip
    let pIncorrectGivenNotKnow := 1 - c.pGuess
    let pIncorrect := pIncorrectGivenKnow * c.pKnow + pIncorrectGivenNotKnow * (1 - c.pKnow)
    if 0 < pIncorrect then (pIncorrectGivenKnow * c.pKnow) / pIncorrect else c.pKnow

/-- Step 2 of `update`: confidence interpolation (line 86). -/
def bktWeighted (c : Concept) (correct : Bool) (confidence : ℚ) : ℚ :=
  c.pKnow + confidence * (bktPosterior c correct - c.pKnow)

/-- Step 3 of `update`: learning transition, before the clamp (line 89). -/
def bktPreClamp (c : Concept) (correct : Bool) (confidence : ℚ) : ℚ :=
  let weighted := bktWeighted c correct confidence
  weighted + (1 - weighted) * c.pLearn

/-- The clamped new mastery probability (line 92). -/
def bktNewPKnow (c : Concept) (correct : Bool) (confidence : ℚ) : ℚ :=
  max (1/1000) (min (999/1000) (bktPreClamp c correct confidence))

/-- Step 4 of `update`: the adaptive learning rate applied to `p_learn`
after the new observation has been appended (lines 105–115). -/
def bktNewPLearn (pLearn : ℚ) (observations : List BKTObs) : ℚ :=
  let recent := lastSlice 3 observations
  if 3 ≤ recent.length then
    let allCorrect := recent.all (fun o => o.correct)
    let allIncorrect := recent.all (fun o => !o.correct)
    let avgConfidence := (recent.map (fun o => o.confidence)).sum / (recent.length : ℚ)
    if allCorrect ∧ 1/2 < avgConfidence then min (2/5) (pLearn * (6/5))
    else if allIncorrect then max (1/20) (pLearn * (4/5))
    else pLearn
  else pLearn

/-- Embeds `ConfidenceWeightedBKT.update`.  Returns the updated map together with
the new mastery probability.  A concept that is not yet tracked is
auto-initialized (`init_concept` with the default prior) before the update;
this is represented by reading the fresh record and writing the updated
record back, which produces the same map. -/
def update (m : BKT) (cid : String) (correct : Bool) (confidence : ℚ)
    (source : String) : BKT × ℚ :=
  let c := match lookupC m cid with
    | some c => c
    | none => freshConcept BKT_DEFAULT_PRIOR
  let newPKnow := bktNewPKnow c correct confidence
  let observations := c.observations ++ [⟨correct, confidence, source⟩]
  let newPLearn := bktNewPLearn c.pLearn observations
  (setC m cid { c with pKnow := newPKnow, pLearn := newPLearn,
                       observations := observations },
   newPKnow)

/-- Embeds `ConfidenceWeightedBKT.get_mastery`. -/
def getMastery (m : BKT) (cid : String) : ℚ :=
  match lookupC m cid with
  | none => 0
  | some c => c.pKnow

/-- Embeds `ConfidenceWeightedBKT.is_mastered`. -/
def isMastered (m : BKT) (cid : String) (threshold : ℚ) : Bool :=
  threshold ≤ getMastery m cid

/-! ### Association-list lemmas -/

theorem lookupC_setC_self (m : BKT) (cid : String) (c : Concept) :
    lookupC (setC m cid c) cid = some c := by
  induction m with
  | nil => simp [setC, lookupC]
  | cons hd tl ih =>
      obtain ⟨k, c0⟩ := hd
      by_cases h : k = cid <;> simp [setC, lookupC, h, ih]

theorem lookupC_setC_ne (m : BKT) (k cid : String) (c : Concept) (h : k ≠ cid) :
    lookupC (setC m k c) cid = lookupC m cid := by
  induction m with
  | nil => simp [setC, lookupC, h]
  | cons hd tl ih =>
      obtain ⟨k0, c0⟩ := hd
      by_cases hk : k0 = k
      · subst hk
        simp [setC, lookupC, h]
      · simp [setC, lookupC, hk, ih]

/-! ## Claim C1: update output stays in [0.001, 0.999] -/

/-- Claim C1: For every map state, concept id, correctness flag, confidence
value and source tag, the mastery probability returned by
`ConfidenceWeightedBKT.update` lies in the closed interval
`[0.001, 0.999]`, and it is exactly the value stored as the concept's new
`p_know`. -/
theorem C1_update_range (m : BKT) (cid : String) (correct : Bool)
    (confidence : ℚ) (source : String) :
    1/1000 ≤ (update m cid correct confidence source).2 ∧
    (update m cid correct confidence source).2 ≤ 999/1000 ∧
    (lookupC (update m cid correct confidence source).1 cid).map Concept.pKnow
      = some (update m cid correct confidence source).2 := by
  refine ⟨?_, ?_, ?_⟩
  · exact le_max_left _ _
  · simp only [update, bktNewPKnow]
    exact max_le (by norm_num) (le_trans (min_le_left _ _) (by norm_num))
  · simp only [update, lookupC_setC_self, Option.map_some]
    rfl

/-! ## Claim C2: monotonicity of confidence weighting -/

theorem update_snd_of_lookup (m : BKT) (cid : String) (c : Concept)
    (correct : Bool) (confidence : ℚ) (source : String)
    (hm : lookupC m cid = some c) :
    (update m cid correct confidence source).2 = bktNewPKnow c correct confidence := by
  simp [update, hm]

/-- For a correct observation on a non-degenerate concept state the raw
Bayesian posterior strictly exceeds the prior. -/
theorem bktPosterior_gt_pKnow (c : Concept)
    (hp0 : 0 < c.pKnow) (hp1 : c.pKnow < 1)
    (hg0 : 0 ≤ c.pGuess) (hgs : c.pGuess < 1 - c.pSlip) :
    c.pKnow < bktPosterior c true := by
  have hD : 0 < (1 - c.pSlip) * c.pKnow + c.pGuess * (1 - c.pKnow) := by
    nlinarith
  have hval : bktPosterior c true
      = (1 - c.pSlip) * c.pKnow / ((1 - c.pSlip) * c.pKnow + c.pGuess * (1 - c.pKnow)) := by
    simp [bktPosterior, hD]
  rw [hval, lt_div_iff₀ hD]
  nlinarith [mul_pos (mul_pos hp0 (sub_pos.mpr hp1)) (sub_pos.mpr hgs)]

/-- The pre-clamp updated value never drops below the prior when the
observation is correct, the confidence is nonnegative and the learning
rate is in `[0, 1)`. -/
theorem bktPreClamp_ge_pKnow (c : Concept) (confidence : ℚ)
    (hpost : c.pKnow ≤ bktPosterior c true)
    (hp1 : c.pKnow < 1)
    (hl0 : 0 ≤ c.pLearn) (hl1 : c.pLearn < 1)
    (hc : 0 ≤ confidence) :
    c.pKnow ≤ bktPreClamp c true confidence := by
  have hw : c.pKnow ≤ bktWeighted c true confidence := by
    rw [bktWeighted]
    nlinarith
  rw [bktPreClamp]
  nlinarith [hw, hl0, hl1, hp1]

/-- Pre-clamp strict monotonicity in the confidence weight. -/
theorem bktPreClamp_strictMono (c : Concept) (c1 c2 : ℚ)
    (hpost : c.pKnow < bktPosterior c true)
    (hl1 : c.pLearn < 1)
    (hcc : c2 < c1) :
    bktPreClamp c true c2 < bktPreClamp c true c1 := by
  simp only [bktPreClamp, bktWeighted]
  nlinarith [mul_pos (mul_pos (sub_pos.mpr hcc) (sub_pos.mpr hpost))
    (sub_pos.mpr hl1)]

/-- Claim C2, amended: For every concept state inside the tracker's
invariant ranges (`p_know ∈ [0.001, 0.999]`, `0 ≤ p_guess < 1 − p_slip`,
`0 ≤ p_learn < 1`) and any two confidence values `c1 > c2 ≥ 0`, applying
the same correct observation with `c1` moves the mastery estimate at
least as much as applying it with `c2`, and strictly more whenever the
higher-confidence update is not clamped at the `0.999` upper bound. -/
theorem C2_confidence_monotone (m : BKT) (cid : String) (c : Concept)
    (source : String) (c1 c2 : ℚ)
    (hm : lookupC m cid = some c)
    (h1 : 1/1000 ≤ c.pKnow) (h2 : c.pKnow ≤ 999/1000)
    (hg0 : 0 ≤ c.pGuess) (hgs : c.pGuess < 1 - c.pSlip)
    (hl0 : 0 ≤ c.pLearn) (hl1 : c.pLearn < 1)
    (hc20 : 0 ≤ c2) (hcc : c2 < c1) :
    |(update m cid true c2 source).2 - c.pKnow| ≤
      |(update m cid true c1 source).2 - c.pKnow| ∧
    (bktPreClamp c true c1 ≤ 999/1000 →
      |(update m cid true c2 source).2 - c.pKnow| <
        |(update m cid true c1 source).2 - c.pKnow|) := by
  have hp0 : 0 < c.pKnow := lt_of_lt_of_le (by norm_num) h1
  have hp1 : c.pKnow < 1 := lt_of_le_of_lt h2 (by norm_num)
  have hpost := bktPosterior_gt_pKnow c hp0 hp1 hg0 hgs
  have hpre2 := bktPreClamp_ge_pKnow c c2 (le_of_lt hpost) hp1 hl0 hl1 hc20
  have hpre1 := bktPreClamp_ge_pKnow c c1 (le_of_lt hpost) hp1 hl0 hl1
    (le_trans hc20 (le_of_lt hcc))
  have hmono := bktPreClamp_strictMono c c1 c2 hpost hl1 hcc
  have hlow : ∀ conf : ℚ, c.pKnow ≤ bktPreClamp c true conf →
      c.pKnow ≤ bktNewPKnow c true conf := by
    intro conf hpre
    rw [bktNewPKnow]
    exact le_trans (le_min h2 hpre) (le_max_right _ _)
  have hnn2 : c.pKnow ≤ (update m cid true c2 source).2 := by
    rw [update_snd_of_lookup m cid c true c2 source hm]
    exact hlow c2 hpre2
  have hnn1 : c.pKnow ≤ (update m cid true c1 source).2 := by
    rw [update_snd_of_lookup m cid c true c1 source hm]
    exact hlow c1 hpre1
  rw [abs_of_nonneg (sub_nonneg.mpr hnn2), abs_of_nonneg (sub_nonneg.mpr hnn1),
    update_snd_of_lookup m cid c true c2 source hm,
    update_snd_of_lookup m cid c true c1 source hm]
  constructor
  · have : bktNewPKnow c true c2 ≤ bktNewPKnow c true c1 := by
      simp only [bktNewPKnow]
      exact max_le_max (le_refl _) (min_le_min (le_refl _) (le_of_lt hmono))
    linarith
  · intro hclamp
    have he1 : bktNewPKnow c true c1 = bktPreClamp c true c1 := by
      rw [bktNewPKnow, min_eq_right hclamp,
        max_eq_right (le_trans h1 hpre1)]
    have he2 : bktNewPKnow c true c2 = bktPreClamp c true c2 := by
      rw [bktNewPKnow, min_eq_right (le_of_lt (lt_of_lt_of_le hmono hclamp)),
        max_eq_right (le_trans h1 hpre2)]
    rw [he1, he2]
    linarith

/-- A mid-range concept state (the default prior), used as a concrete input. -/
def cMid : Concept := ⟨3/10, 1/10, 1/4, 1/10, []⟩

/-- The concept state at the upper end of the tracker's clamp range. -/
def cHigh : Concept := ⟨999/1000, 1/10, 1/4, 1/10, []⟩

/-- Witness for C2: A concrete state and confidence pair on which the
amended monotonicity theorem applies and yields the strict inequality. -/
theorem C2_confidence_monotone_witness :
    |(update [("c", cMid)] "c" true (1/2) "s").2 - cMid.pKnow| <
      |(update [("c", cMid)] "c" true 1 "s").2 - cMid.pKnow| := by
  have h := C2_confidence_monotone [("c", cMid)] "c" cMid "s" 1 (1/2)
    (by simp [lookupC]) (by norm_num [cMid]) (by norm_num [cMid])
    (by norm_num [cMid]) (by norm_num [cMid]) (by norm_num [cMid])
    (by norm_num [cMid]) (by norm_num) (by norm_num)
  exact h.2 (by norm_num [cMid, bktPreClamp, bktWeighted, bktPosterior])

/-- Counterexample for C2: The claim as stated is false: at the reachable
concept state with `p_know = 0.999` (the upper end of the tracker's own
invariant), a fully confident correct observation (`c1 = 1`) and a
half-confident one (`c2 = 1/2`) both saturate the `0.999` clamp, so the
higher confidence does **not** move mastery strictly more. -/
theorem C2_counterexample :
    (0 : ℚ) ≤ 1/2 ∧ (1/2 : ℚ) < 1 ∧
    (update [("c", cHigh)] "c" true 1 "s").2 = 999/1000 ∧
    (update [("c", cHigh)] "c" true (1/2) "s").2 = 999/1000 ∧
    ¬ (|(update [("c", cHigh)] "c" true (1/2) "s").2 - cHigh.pKnow| <
       |(update [("c", cHigh)] "c" true 1 "s").2 - cHigh.pKnow|) := by
  have h1 : (update [("c", cHigh)] "c" true 1 "s").2 = 999/1000 := by
    rw [update_snd_of_lookup [("c", cHigh)] "c" cHigh true 1 "s" (by simp [lookupC])]
    norm_num [cHigh, bktNewPKnow, bktPreClamp, bktWeighted, bktPosterior,
      min_def, max_def]
  have h2 : (update [("c", cHigh)] "c" true (1/2) "s").2 = 999/1000 := by
    rw [update_snd_of_lookup [("c", cHigh)] "c" cHigh true (1/2) "s" (by simp [lookupC])]
    norm_num [cHigh, bktNewPKnow, bktPreClamp, bktWeighted, bktPosterior,
      min_def, max_def]
  refine ⟨by norm_num, by norm_num, h1, h2, ?_⟩
  rw [h1, h2]
  norm_num [cHigh]

/-! ## Claim C10: unknown concepts read as mastery 0.0 -/

/-- The two operations that can create or modify a concept entry. -/
inductive BKTOp where
  | init (cid : String) (prior : ℚ)
  | obs (cid : String) (correct : Bool) (confidence : ℚ) (source : String)

/-- The concept identifier an operation is addressed to. -/
def opCid : BKTOp → String
  | .init cid _ => cid
  | .obs cid _ _ _ => cid

/-- Apply one operation to the tracker state. -/
def applyOp (m : BKT) : BKTOp → BKT
  | .init cid prior => initConcept m cid prior
  | .obs cid correct confidence source => (update m cid correct confidence source).1

/-- Run a sequence of operations on a freshly constructed tracker. -/
def runOps (ops : List BKTOp) : BKT := ops.foldl applyOp []

theorem lookupC_applyOp_ne (m : BKT) (op : BKTOp) (cid : String)
    (h : opCid op ≠ cid) :
    lookupC (applyOp m op) cid = lookupC m cid := by
  cases op with
  | init k prior =>
      simp only [opCid] at h
      simp only [applyOp, initConcept]
      cases hl : lookupC m k with
      | some c => rfl
      | none => exact lookupC_setC_ne m k cid _ h
  | obs k correct confidence source =>
      simp only [opCid] at h
      simp only [applyOp, update]
      exact lookupC_setC_ne m k cid _ h

theorem lookupC_runOps_not_mem (ops : List BKTOp) (cid : String)
    (h : cid ∉ ops.map opCid) :
    lookupC (runOps ops) cid = none := by
  suffices H : ∀ m : BKT, lookupC m cid = none →
      lookupC (ops.foldl applyOp m) cid = none from H [] rfl
  induction ops with
  | nil => intro m hm; simpa using hm
  | cons op rest ih =>
      intro m hm
      simp only [List.map_cons, List.mem_cons] at h
      have hop : opCid op ≠ cid := fun he => h (Or.inl he.symm)
      simp only [List.foldl_cons]
      exact (ih (fun hr => h (Or.inr hr))) _ ((lookupC_applyOp_ne m op cid hop).trans hm)

/-- Claim C10: A concept identifier never passed to `update` or
`init_concept` reads back a mastery of exactly `0.0` from `get_mastery`
(outside the `(0,1)` interval tracked mastery lives in), and
`is_mastered` is `false` for it at every positive threshold. -/
theorem C10_unknown_concept (ops : List BKTOp) (cid : String)
    (h : cid ∉ ops.map opCid) :
    getMastery (runOps ops) cid = 0 ∧
    ∀ threshold : ℚ, 0 < threshold → isMastered (runOps ops) cid threshold = false := by
  have hl := lookupC_runOps_not_mem ops cid h
  constructor
  · simp [getMastery, hl]
  · intro threshold ht
    simp [isMastered, getMastery, hl, not_le.mpr ht]

/-- Witness for C10: After initializing `"calculus"` and observing
`"algebra"`, the untouched concept `"geometry"` reads back mastery `0`
and is not mastered at the configured mastery threshold. -/
theorem C10_unknown_concept_witness :
    getMastery (runOps [.init "calculus" (3/10), .obs "algebra" true (7/10) "screen"])
        "geometry" = 0 ∧
    isMastered (runOps [.init "calculus" (3/10), .obs "algebra" true (7/10) "screen"])
        "geometry" BKT_MASTERY_THRESHOLD = false := by
  have h := C10_unknown_concept
    [.init "calculus" (3/10), .obs "algebra" true (7/10) "screen"] "geometry"
    (by simp [opCid])
  exact ⟨h.1, h.2 BKT_MASTERY_THRESHOLD (by norm_num [BKT_MASTERY_THRESHOLD])⟩

/-! ## `ConfusionDetector` (`agents/confusion_detector.py`) -/

/-- Substring test on character lists: Python's `needle in hay`. -/
def listHasSub : List Char → List Char → Bool
  | [], needle => needle.isEmpty
  | h :: t, needle => needle.isPrefixOf (h :: t) || listHasSub t needle

/-- Python's `sub in s` on strings. -/
def strContains (s sub : String) : Bool := listHasSub s.data sub.data

/-- Python's `str.lower` (ASCII, which is all the source's lexicons use). -/
def lowerStr (s : String) : String := ⟨s.data.map Char.toLower⟩

/-- Embeds `ConfusionDetector._has_keywords`. -/
def hasKeywords (text : String) (keywords : List String) : Bool :=
  keywords.any (fun kw => strContains text kw)

def VISUAL_KEYWORDS : List String :=
  ["visual", "visualize", "graph", "plot", "diagram", "picture",
   "image", "shape", "geometry", "spatial", "3d", "surface",
   "draw", "sketch", "see", "look like", "imagine"]

def CONCEPTUAL_KEYWORDS : List String :=
  ["why", "concept", "understand", "meaning", "intuition",
   "reason", "explain", "theory", "fundamental", "abstract",
   "idea", "principle", "logic", "proof"]

def PROCEDURAL_KEYWORDS : List String :=
  ["how", "steps", "procedure", "process", "method",
   "algorithm", "implement", "code", "solve", "calculate",
   "compute", "formula", "equation", "syntax"]

def VERBAL_CONFUSION_CUE_WEIGHTS : List (String × ℚ) :=
  [("confused", 4/5), ("don\x27t understand", 9/10), ("lost", 7/10),
   ("stuck", 7/10), ("what", 2/5), ("huh", 3/5), ("wait", 3/10),
   ("hmm", 3/10), ("no idea", 9/10), ("makes no sense", 9/10),
   ("help", 3/5)]

/-- The snapshot record (`agents/models.py`, `WorkContext`).
`typingSpeed` embeds the source's typing-speed-to-baseline quotient field;
the base64 screenshot payload is carried opaquely in the source and
omitted here. -/
structure WorkContext where
  screenContent : String := ""
  screenContentType : String := "text"
  detectedTopic : String := ""
  detectedSubtopic : String := ""
  typingSpeed : ℚ := 1
  deletionRate : ℚ := 0
  pauseDuration : ℚ := 0
  scrollBackCount : ℤ := 0
  audioTranscript : Option String := none
  verbalConfusionCues : List String := []
  userTouchedAgent : Bool := false
  userMessage : Option String := none
  userId : String := "default"
  sessionId : String := ""
  timestamp : String := ""
  geminiStuck : Bool := false
  geminiWorkStatus : String := "unclear"
  geminiConfusedAbout : List String := []
  geminiUnderstands : List String := []
  geminiError : Option String := none
  geminiMode : String := ""
  geminiNotes : String := ""

/-- Embeds `ConfusionDetector._typing_signal`. -/
def typingSignal (speedQuot : ℚ) : ℚ :=
  if speedQuot ≤ 0 then 4/5 else max 0 (1 - speedQuot)

/-- Embeds `ConfusionDetector._deletion_signal`. -/
def deletionSignal (deletionRate : ℚ) : ℚ :=
  if 3/5 < deletionRate then 9/10
  else if 2/5 < deletionRate then 3/5
  else if 1/5 < deletionRate then 3/10
  else max 0 deletionRate

/-- Embeds `ConfusionDetector._pause_signal`. -/
def pauseSignal (pauseDuration : ℚ) : ℚ :=
  if 30 < pauseDuration then 19/20
  else if 15 < pauseDuration then 7/10
  else if 8 < pauseDuration then 1/2
  else if 3 < pauseDuration then 1/5
  else 0

/-- Embeds `ConfusionDetector._reread_signal`. -/
def rereadSignal (scrollBackCount : ℤ) : ℚ :=
  if 8 ≤ scrollBackCount then 1
  else if 4 ≤ scrollBackCount then 7/10
  else if 2 ≤ scrollBackCount then 2/5
  else if 1 ≤ scrollBackCount then 1/5
  else 0

/-- Embeds `ConfusionDetector._verbal_signal`: the largest lexicon weight found in
any cue (each cue lower-cased and stripped), `0` with no cues. -/
def verbalSignal (cues : List String) : ℚ :=
  if cues.isEmpty then 0
  else
    cues.foldl (fun acc cue =>
      let cueLower := (lowerStr cue).trim
      VERBAL_CONFUSION_CUE_WEIGHTS.foldl
        (fun best kw => if strContains cueLower kw.1 then max best kw.2 else best)
        acc) 0

/-- The cue list fed to the verbal signal in `score`: explicit cues plus
the user message when it is truthy. -/
def ctxVerbalCues (ctx : WorkContext) : List String :=
  ctx.verbalConfusionCues ++
    (if truthyStr ctx.userMessage then [ctx.userMessage.getD ""] else [])

/-- Embeds `ConfusionDetector._gemini_signal`. -/
def geminiSignal (ctx : WorkContext) : ℚ :=
  let score : ℚ := 0
  let score := if ctx.geminiStuck then score + 3/5 else score
  let status := if ctx.geminiWorkStatus = "" then "" else lowerStr ctx.geminiWorkStatus
  let score :=
    if status = "incorrect" then score + 7/10
    else if status = "incomplete" then score + 1/5
    else score
  let score :=
    if ¬ctx.geminiConfusedAbout.isEmpty then
      score + min (1/2) ((ctx.geminiConfusedAbout.length : ℚ) * (1/4))
    else score
  let score := if truthyStr ctx.geminiError then score + 3/10 else score
  min 1 score

/-- Embeds `ConfusionDetector._has_gemini_data`. -/
def hasGeminiData (ctx : WorkContext) : Bool :=
  ctx.geminiStuck
  || !(ctx.geminiWorkStatus = "unclear" || ctx.geminiWorkStatus = "")
  || !ctx.geminiConfusedAbout.isEmpty
  || !ctx.geminiUnderstands.isEmpty
  || truthyStr ctx.geminiError

/-- The weighted fusion of `score` before the final clamp
(lines 72–96 of `confusion_detector.py`). -/
def fusedRaw (ctx : WorkContext) : ℚ :=
  let sTyping := typingSignal ctx.typingSpeed
  let sDeletion := deletionSignal ctx.deletionRate
  let sPause := pauseSignal ctx.pauseDuration
  let sReread := rereadSignal ctx.scrollBackCount
  let sVerbal := verbalSignal (ctxVerbalCues ctx)
  let sTouch : ℚ := if ctx.userTouchedAgent then 1 else 0
  let sGemini := geminiSignal ctx
  if hasGeminiData ctx then
    sTyping * WEIGHT_TYPING + sDeletion * WEIGHT_DELETION + sPause * WEIGHT_PAUSE
      + sReread * WEIGHT_REREAD + sVerbal * WEIGHT_VERBAL + sTouch * WEIGHT_TOUCH
      + sGemini * WEIGHT_GEMINI
  else
    let behavioralTotal := WEIGHT_TYPING + WEIGHT_DELETION + WEIGHT_PAUSE
      + WEIGHT_REREAD + WEIGHT_VERBAL + WEIGHT_TOUCH
    sTyping * (WEIGHT_TYPING / behavioralTotal)
      + sDeletion * (WEIGHT_DELETION / behavioralTotal)
      + sPause * (WEIGHT_PAUSE / behavioralTotal)
      + sReread * (WEIGHT_REREAD / behavioralTotal)
      + sVerbal * (WEIGHT_VERBAL / behavioralTotal)
      + sTouch * (WEIGHT_TOUCH / behavioralTotal)

/-- The fused confusion score after the clamp (line 99). -/
def fusedScore (ctx : WorkContext) : ℚ := max 0 (min 1 (fusedRaw ctx))

/-- Embeds `ConfusionDetector._classify`, priority rules 1–11 plus the default. -/
def classify (ctx : WorkContext) : String :=
  let sDeletion := deletionSignal ctx.deletionRate
  let sPause := pauseSignal ctx.pauseDuration
  let sReread := rereadSignal ctx.scrollBackCount
  let sVerbal := verbalSignal (ctxVerbalCues ctx)
  let score := fusedScore ctx
  let msgLower := lowerStr (ctx.userMessage.getD "")
  if ctx.userTouchedAgent ∧ msgLower ≠ "" ∧ hasKeywords msgLower VISUAL_KEYWORDS then
    "VISUAL_SPATIAL"
  else if ctx.userTouchedAgent ∧ msgLower ≠ "" ∧ hasKeywords msgLower CONCEPTUAL_KEYWORDS then
    "CONCEPTUAL_WHY"
  else if ctx.userTouchedAgent ∧ msgLower ≠ "" ∧ hasKeywords msgLower PROCEDURAL_KEYWORDS then
    "PROCEDURAL_HOW"
  else if ctx.userTouchedAgent then "CONCEPTUAL_WHY"
  else if ctx.geminiWorkStatus = "incorrect" then
    if ctx.screenContentType = "code" ∨ ctx.screenContentType = "equation" then
      "PROCEDURAL_HOW"
    else "CONCEPTUAL_WHY"
  else if ctx.geminiStuck ∧
      (ctx.screenContentType = "equation" ∨ ctx.screenContentType = "diagram") then
    "VISUAL_SPATIAL"
  else if ctx.geminiStuck ∧ ¬ctx.geminiConfusedAbout.isEmpty then "CONCEPTUAL_WHY"
  else if (ctx.screenContentType = "equation" ∨ ctx.screenContentType = "diagram")
      ∧ 1/2 < sReread then
    "VISUAL_SPATIAL"
  else if 1/2 < sPause ∧ 3/10 < sVerbal then "CONCEPTUAL_WHY"
  else if 3/5 < sDeletion then "PROCEDURAL_HOW"
  else if score < 3/10 then "NONE_EXTENDING"
  else "CONCEPTUAL_WHY"

/-- The Gemini VLM override of the intervention decision
(lines 109–113 of `confusion_detector.py`). -/
def geminiOverride (ctx : WorkContext) : Bool :=
  (ctx.geminiStuck &&
    (ctx.geminiWorkStatus == "incorrect" || ctx.geminiWorkStatus == "incomplete"))
  || (ctx.geminiWorkStatus == "incorrect" && truthyStr ctx.geminiError)
  || decide (2 ≤ ctx.geminiConfusedAbout.length)

/-- The intervention decision (lines 115–119). -/
def shouldIntervene (ctx : WorkContext) : Bool :=
  ctx.userTouchedAgent
  || decide (CONFUSION_THRESHOLD < fusedScore ctx)
  || geminiOverride ctx

/-! ## Claim C9: the typing sub-score -/

/-- Counterexample for C9: The claim that the typing sub-score always
equals `max(0, 1 − typing_speed_ratio)` is false at ratio `0`: the code
returns the sentinel value `0.8` there, while the formula gives `1`. -/
theorem C9_counterexample :
    typingSignal 0 = 4/5 ∧ max 0 (1 - (0 : ℚ)) = 1 ∧ (4/5 : ℚ) ≠ 1 := by
  refine ⟨?_, by norm_num, by norm_num⟩
  rw [typingSignal, if_pos (le_refl (0 : ℚ))]

/-- Claim C9, amended: The typing sub-score equals
`max(0, 1 − typing_speed_ratio)` whenever the ratio is positive, and is
the fixed value `0.8` whenever the ratio is `≤ 0`. -/
theorem C9_typing_signal (r : ℚ) :
    (0 < r → typingSignal r = max 0 (1 - r)) ∧
    (r ≤ 0 → typingSignal r = 4/5) := by
  constructor
  · intro h
    rw [typingSignal, if_neg (not_le.mpr h)]
  · intro h
    rw [typingSignal, if_pos h]

/-- Witness for C9: Both branches of the amended claim at concrete
ratios: `1/4` (formula branch) and `-2` (sentinel branch). -/
theorem C9_typing_signal_witness :
    ((0 : ℚ) < 1/4 ∧ typingSignal (1/4) = max 0 (1 - 1/4)) ∧
    ((-2 : ℚ) ≤ 0 ∧ typingSignal (-2) = 4/5) :=
  ⟨⟨by norm_num, (C9_typing_signal (1/4)).1 (by norm_num)⟩,
   ⟨by norm_num, (C9_typing_signal (-2)).2 (by norm_num)⟩⟩

/-! ## Claim C4: fusion with and without content-analysis data -/

/-- Modelled from the spec's fusion rule, content-analysis present: all
seven sub-scores combined with the fixed weight table. -/
def specFullFusion (ctx : WorkContext) : ℚ :=
  typingSignal ctx.typingSpeed * WEIGHT_TYPING
    + deletionSignal ctx.deletionRate * WEIGHT_DELETION
    + pauseSignal ctx.pauseDuration * WEIGHT_PAUSE
    + rereadSignal ctx.scrollBackCount * WEIGHT_REREAD
    + verbalSignal (ctxVerbalCues ctx) * WEIGHT_VERBAL
    + (if ctx.userTouchedAgent then (1 : ℚ) else 0) * WEIGHT_TOUCH
    + geminiSignal ctx * WEIGHT_GEMINI

/-- Modelled from the spec's fusion rule, content-analysis absent: the
six behavioral sub-scores with their weights renormalized by the
behavioral weight total (the content-analysis term dropped, not zeroed). -/
def specBehavioralFusion (ctx : WorkContext) : ℚ :=
  let behavioralTotal := WEIGHT_TYPING + WEIGHT_DELETION + WEIGHT_PAUSE
    + WEIGHT_REREAD + WEIGHT_VERBAL + WEIGHT_TOUCH
  typingSignal ctx.typingSpeed * (WEIGHT_TYPING / behavioralTotal)
    + deletionSignal ctx.deletionRate * (WEIGHT_DELETION / behavioralTotal)
    + pauseSignal ctx.pauseDuration * (WEIGHT_PAUSE / behavioralTotal)
    + rereadSignal ctx.scrollBackCount * (WEIGHT_REREAD / behavioralTotal)
    + verbalSignal (ctxVerbalCues ctx) * (WEIGHT_VERBAL / behavioralTotal)
    + (if ctx.userTouchedAgent then (1 : ℚ) else 0) * (WEIGHT_TOUCH / behavioralTotal)

/-- Claim C4: For every snapshot: without content-analysis data the fused
score is the clamp to `[0,1]` of the six behavioral sub-scores combined
with renormalized weights; the renormalized weights sum to exactly `1`;
with content-analysis data the fused score is the clamp to `[0,1]` of
all seven sub-scores under the fixed weight table; and in both cases the
result lies in `[0,1]`. -/
theorem C4_fusion_renormalization (ctx : WorkContext) :
    fusedScore ctx =
      (if hasGeminiData ctx then max 0 (min 1 (specFullFusion ctx))
       else max 0 (min 1 (specBehavioralFusion ctx))) ∧
    WEIGHT_TYPING / (WEIGHT_TYPING + WEIGHT_DELETION + WEIGHT_PAUSE
        + WEIGHT_REREAD + WEIGHT_VERBAL + WEIGHT_TOUCH)
      + WEIGHT_DELETION / (WEIGHT_TYPING + WEIGHT_DELETION + WEIGHT_PAUSE
        + WEIGHT_REREAD + WEIGHT_VERBAL + WEIGHT_TOUCH)
      + WEIGHT_PAUSE / (WEIGHT_TYPING + WEIGHT_DELETION + WEIGHT_PAUSE
        + WEIGHT_REREAD + WEIGHT_VERBAL + WEIGHT_TOUCH)
      + WEIGHT_REREAD / (WEIGHT_TYPING + WEIGHT_DELETION + WEIGHT_PAUSE
        + WEIGHT_REREAD + WEIGHT_VERBAL + WEIGHT_TOUCH)
      + WEIGHT_VERBAL / (WEIGHT_TYPING + WEIGHT_DELETION + WEIGHT_PAUSE
        + WEIGHT_REREAD + WEIGHT_VERBAL + WEIGHT_TOUCH)
      + WEIGHT_TOUCH / (WEIGHT_TYPING + WEIGHT_DELETION + WEIGHT_PAUSE
        + WEIGHT_REREAD + WEIGHT_VERBAL + WEIGHT_TOUCH) = 1 ∧
    0 ≤ fusedScore ctx ∧ fusedScore ctx ≤ 1 := by
  refine ⟨?_, ?_, ?_, ?_⟩
  · cases h : hasGeminiData ctx <;>
      simp [fusedScore, fusedRaw, specFullFusion, specBehavioralFusion, h]
  · norm_num [WEIGHT_TYPING, WEIGHT_DELETION, WEIGHT_PAUSE, WEIGHT_REREAD,
      WEIGHT_VERBAL, WEIGHT_TOUCH]
  · exact le_max_left 0 _
  · exact max_le (by norm_num) (min_le_left 1 _)

/-! ## Claim C3: the intervention decision -/

/-- Claim C3: For every snapshot, `should_intervene` is `true` precisely
when the user explicitly touched the agent, or the fused confusion score
exceeds the configured threshold, or the content-analysis override fires:
stuck with work-status incorrect or incomplete, or work-status incorrect
with a non-empty error description, or at least two confused-about
concepts listed. -/
theorem C3_intervene_iff (ctx : WorkContext) :
    shouldIntervene ctx = true ↔
      ctx.userTouchedAgent = true
      ∨ CONFUSION_THRESHOLD < fusedScore ctx
      ∨ (ctx.geminiStuck = true ∧
          (ctx.geminiWorkStatus = "incorrect" ∨ ctx.geminiWorkStatus = "incomplete"))
      ∨ (ctx.geminiWorkStatus = "incorrect" ∧ ∃ e, ctx.geminiError = some e ∧ e ≠ "")
      ∨ 2 ≤ ctx.geminiConfusedAbout.length := by
  have herr : truthyStr ctx.geminiError = true ↔ ∃ e, ctx.geminiError = some e ∧ e ≠ "" := by
    cases he : ctx.geminiError with
    | none => simp [truthyStr]
    | some e => simp [truthyStr]
  simp [shouldIntervene, geminiOverride, Bool.or_eq_true, Bool.and_eq_true,
    decide_eq_true_iff, beq_iff_eq, herr, or_assoc, and_assoc]

/-! ## Claim C6: deterministic priority-ordered classification -/

/-- Claim C6: First-match classification on three families of snapshots:
explicit touch with the message `"show me a graph"` classifies as
`VISUAL_SPATIAL`; explicit touch with `"why does this work?"` classifies
as `CONCEPTUAL_WHY`; and equation content with scroll-back count `≥ 8`,
no touch and no content-analysis fields classifies as `VISUAL_SPATIAL`,
whatever the remaining snapshot fields are. -/
theorem C6_classification :
    (∀ ctx : WorkContext,
      classify { ctx with userTouchedAgent := true,
                          userMessage := some "show me a graph" } = "VISUAL_SPATIAL") ∧
    (∀ ctx : WorkContext,
      classify { ctx with userTouchedAgent := true,
                          userMessage := some "why does this work?" } = "CONCEPTUAL_WHY") ∧
    (∀ (ctx : WorkContext) (n : ℤ), 8 ≤ n →
      classify { ctx with userTouchedAgent := false,
                          screenContentType := "equation",
                          scrollBackCount := n,
                          geminiStuck := false,
                          geminiWorkStatus := "unclear",
                          geminiConfusedAbout := [],
                          geminiUnderstands := [],
                          geminiError := none } = "VISUAL_SPATIAL") := by
  refine ⟨fun ctx => ?_, fun ctx => ?_, fun ctx n hn => ?_⟩
  · rfl
  · rfl
  · have hr : rereadSignal n = 1 := by rw [rereadSignal, if_pos hn]
    have h5 : ("unclear" : String) ≠ "incorrect" := by decide
    simp only [classify, hr]
    norm_num [h5]

/-- The all-defaults snapshot (every `WorkContext` field at its
`models.py` default). -/
def defaultCtx : WorkContext := {}

/-- Witness for C6: The third part of the classification theorem applied
at the all-defaults snapshot with scroll-back count `9`. -/
theorem C6_classification_witness :
    (8 : ℤ) ≤ 9 ∧
    classify { defaultCtx with userTouchedAgent := false,
                               screenContentType := "equation",
                               scrollBackCount := 9,
                               geminiStuck := false,
                               geminiWorkStatus := "unclear",
                               geminiConfusedAbout := [],
                               geminiUnderstands := [],
                               geminiError := none } = "VISUAL_SPATIAL" :=
  ⟨by norm_num, C6_classification.2.2 {} 9 (by norm_num)⟩

/-! ## `DialogueSession` (`agents/dialogue_session.py`) -/

/-- The five dialogue states.  The source stores them as strings but only
ever assigns these five values (`__init__` sets `"initiating"` and
`advance_state` stores the output of `get_next_state`). -/
inductive DState where
  | initiating
  | exploring
  | explaining
  | checking
  | closing
  deriving DecidableEq, Repr

/-- The externally supplied per-turn analysis dict.  `comprehension` is
`Option`-valued because the source reads it with `.get("comprehension", 0.5)`. -/
structure Analysis where
  comprehension : Option ℚ := none
  restatedInOwnWords : Bool := false
  remainingConfusion : Option String := none
  misconceptionDetected : Option String := none
  engagementLevel : String := "medium"
  deriving DecidableEq, Repr

/-- One dialogue turn (`{role, content, timestamp, analysis}`; the
timestamp is write-only bookkeeping and omitted). -/
structure Turn where
  role : String
  content : String
  analysis : Option Analysis
  deriving DecidableEq, Repr

/-- The session's accumulated confusion model. -/
structure ConfusionModel where
  initialHypothesis : String
  refinedHypothesis : String
  confirmedUnderstanding : List String
  remainingGaps : List String
  approachesTried : List String
  deriving DecidableEq, Repr

/-- The mutable state of a `DialogueSession` (`started_at` is replaced by
passing `elapsed` explicitly to the operations that read the clock). -/
structure Session where
  sessionId : String
  userId : String
  turns : List Turn
  state : DState
  confusionModel : ConfusionModel
  comprehensionSignals : List ℚ
  maxTurns : ℕ
  concept : String
  deriving DecidableEq, Repr

/-- Embeds `DialogueSession.__init__` (fields drawn from the trigger context). -/
def newSession (sessionId userId confusionHypothesis concept : String) : Session :=
  { sessionId := sessionId
    userId := userId
    turns := []
    state := .initiating
    confusionModel :=
      { initialHypothesis := confusionHypothesis
        refinedHypothesis := ""
        confirmedUnderstanding := []
        remainingGaps := []
        approachesTried := [] }
    comprehensionSignals := []
    maxTurns := MAX_DIALOGUE_TURNS
    concept := concept }

/-- Embeds `DialogueSession.add_agent_turn`. -/
def addAgentTurn (s : Session) (content : String) : Session :=
  { s with turns := s.turns ++ [{ role := "agent", content := content, analysis := none }] }

/-- Embeds `DialogueSession.add_user_turn`: records the turn, then folds the
analysis (when present) into the comprehension history and the confusion
model, honouring Python truthiness on each field. -/
def addUserTurn (s : Session) (content : String) (analysis : Option Analysis) : Session :=
  let s := { s with
    turns := s.turns ++ [{ role := "user", content := content, analysis := analysis }] }
  match analysis with
  | none => s
  | some a =>
    let s := { s with
      comprehensionSignals := s.comprehensionSignals ++ [a.comprehension.getD (1/2)] }
    let s := if truthyStr a.misconceptionDetected then
        { s with confusionModel := { s.confusionModel with
            remainingGaps :=
              s.confusionModel.remainingGaps ++ [a.misconceptionDetected.getD ""] } }
      else s
    let s := if a.restatedInOwnWords then
        { s with confusionModel := { s.confusionModel with
            confirmedUnderstanding :=
              s.confusionModel.confirmedUnderstanding ++ [content.take 100] } }
      else s
    if truthyStr a.remainingConfusion then
        { s with confusionModel := { s.confusionModel with
            refinedHypothesis := a.remainingConfusion.getD "" } }
      else s

/-- Embeds `DialogueSession.should_close`: max turns, timeout, or a closing
streak of comprehension scores above the threshold. -/
def shouldClose (s : Session) (elapsed : ℚ) : Bool :=
  decide (s.maxTurns ≤ s.turns.length)
  || decide (MAX_DIALOGUE_DURATION_SECONDS < elapsed)
  || (decide (CLOSING_COMPREHENSION_STREAK ≤ s.comprehensionSignals.length)
      && (lastSlice CLOSING_COMPREHENSION_STREAK s.comprehensionSignals).all
          (fun c => decide (CLOSING_COMPREHENSION_THRESHOLD < c)))

/-- Embeds `DialogueSession.get_next_state`. -/
def getNextState (s : Session) (elapsed : ℚ) : DState :=
  if shouldClose s elapsed then .closing
  else
    match s.state with
    | .initiating => .exploring
    | .exploring =>
        if s.confusionModel.refinedHypothesis ≠ "" then .explaining else .exploring
    | .explaining =>
        match s.comprehensionSignals.getLast? with
        | some c => if 3/5 < c then .checking else .explaining
        | none => .explaining
    | .checking =>
        match s.comprehensionSignals.getLast? with
        | some c => if 7/10 < c then .closing else .explaining
        | none => .explaining
    | .closing => .closing

/-- Embeds `DialogueSession.advance_state`. -/
def advanceState (s : Session) (elapsed : ℚ) : Session :=
  { s with state := getNextState s elapsed }

/-- Embeds `DialogueSession._state_confidence`. -/
def stateConfidence : DState → ℚ
  | .initiating => 1/5
  | .exploring => 3/10
  | .explaining => 1/2
  | .checking => 17/20
  | .closing => 4/5

/-- One observation handed to the mastery tracker on session close. -/
structure DialogueObs where
  conceptId : String
  correct : Bool
  confidence : ℚ
  source : String
  deriving DecidableEq, Repr

/-- The observations contributed by one turn inside
`DialogueSession.get_observations`: user turns with a truthy analysis
yield a comprehension observation at the given confidence, plus the
misconception and restatement observations. -/
def turnObservations (concept : String) (confidence : ℚ) (t : Turn) : List DialogueObs :=
  if t.role = "user" then
    match t.analysis with
    | none => []
    | some a =>
      [{ conceptId := concept
         correct := decide ((1/2 : ℚ) < a.comprehension.getD (1/2))
         confidence := confidence
         source := "dialogue" }]
      ++ (if truthyStr a.misconceptionDetected then
            [{ conceptId := concept, correct := false, confidence := 9/10,
               source := "dialogue_misconception" }]
          else [])
      ++ (if a.restatedInOwnWords then
            [{ conceptId := concept, correct := true, confidence := 17/20,
               source := "dialogue_restatement" }]
          else [])
  else []

/-- Embeds `DialogueSession.get_observations`: every turn contributes through
`turnObservations`, with the confidence taken from `_state_confidence`
applied to the session's **current** state. -/
def getObservations (s : Session) : List DialogueObs :=
  s.turns.flatMap (turnObservations s.concept (stateConfidence s.state))

/-! ## Claim C7: the state machine never regresses -/

/-- Position of each state in the forward order
`initiating → exploring → explaining → checking → closing`. -/
def stateRank : DState → ℕ
  | .initiating => 0
  | .exploring => 1
  | .explaining => 2
  | .checking => 3
  | .closing => 4

/-- Claim C7: For every session and elapsed time, `get_next_state` never
moves backwards except for the single `checking → explaining` loop:
the rank never decreases apart from that one transition, `exploring` is
never re-entered from `explaining` or `checking`, a state other than
`initiating` never transitions to `initiating`, and `closing` is
terminal. -/
theorem C7_no_regression (s : Session) (elapsed : ℚ) :
    (stateRank s.state ≤ stateRank (getNextState s elapsed)
      ∨ (s.state = .checking ∧ getNextState s elapsed = .explaining)) ∧
    ((s.state = .explaining ∨ s.state = .checking) →
      getNextState s elapsed ≠ .exploring) ∧
    (s.state ≠ .initiating → getNextState s elapsed ≠ .initiating) ∧
    (s.state = .closing → getNextState s elapsed = .closing) := by
  by_cases hc : shouldClose s elapsed
  · have hn : getNextState s elapsed = .closing := by rw [getNextState, if_pos hc]
    rw [hn]
    refine ⟨Or.inl ?_, by simp, by simp, by simp⟩
    cases s.state <;> simp [stateRank]
  · rw [getNextState, if_neg hc]
    cases hst : s.state with
    | initiating => simp [stateRank]
    | exploring =>
        by_cases hr : s.confusionModel.refinedHypothesis ≠ "" <;>
          simp [hr, stateRank]
    | explaining =>
        cases hl : s.comprehensionSignals.getLast? with
        | none => simp [stateRank]
        | some c =>
            by_cases hcc : (3/5 : ℚ) < c <;> simp [hcc, stateRank]
    | checking =>
        cases hl : s.comprehensionSignals.getLast? with
        | none => simp [stateRank]
        | some c =>
            by_cases hcc : (7/10 : ℚ) < c <;> simp [hcc, stateRank]
    | closing => simp [stateRank]

/-- Witness for C7: Concrete sessions exercising the conditional parts:
from `checking` the machine never returns to `initiating` or `exploring`,
and from `closing` it stays in `closing`. -/
theorem C7_no_regression_witness :
    (getNextState { newSession "s" "u" "h" "cal" with state := .checking } 0
        ≠ .initiating) ∧
    (getNextState { newSession "s" "u" "h" "cal" with state := .checking } 0
        ≠ .exploring) ∧
    (getNextState { newSession "s" "u" "h" "cal" with state := .closing } 0
        = .closing) :=
  ⟨(C7_no_regression { newSession "s" "u" "h" "cal" with state := .checking } 0).2.2.1
      (by simp [newSession]),
   (C7_no_regression { newSession "s" "u" "h" "cal" with state := .checking } 0).2.1
      (by simp [newSession]),
   (C7_no_regression { newSession "s" "u" "h" "cal" with state := .closing } 0).2.2.2
      (by simp [newSession])⟩

/-! ## Claim C8: observations emitted on close -/

/-- Modelled from the amended claim: the per-turn observation content —
`correct = comprehension > 0.5` at the given confidence, one `0.9`
negative observation per detected misconception, one `0.85` positive
observation per restatement in the learner's own words. -/
def specTurnObs (concept : String) (conf : ℚ) (t : Turn) : List DialogueObs :=
  match t.analysis with
  | none => []
  | some a =>
      { conceptId := concept
        correct := decide ((1/2 : ℚ) < a.comprehension.getD (1/2))
        confidence := conf
        source := "dialogue" }
      :: ((if truthyStr a.misconceptionDetected then
            [{ conceptId := concept, correct := false, confidence := 9/10,
               source := "dialogue_misconception" }]
          else [])
        ++ (if a.restatedInOwnWords then
            [{ conceptId := concept, correct := true, confidence := 17/20,
               source := "dialogue_restatement" }]
          else []))

/-- Modelled from the amended claim: on close the session emits, for each
user turn that carries an analysis, the observations of `specTurnObs`
with the confidence given by the per-state table applied to the
session's state at collection time — the same confidence for every
turn. -/
def specCloseObservations (s : Session) : List DialogueObs :=
  (s.turns.filter (fun t => decide (t.role = "user") && t.analysis.isSome)).flatMap
    (specTurnObs s.concept (stateConfidence s.state))

/-- Claim C8, amended: `get_observations` produces exactly one
comprehension observation (`correct = comprehension > 0.5`) per user
turn carrying an analysis, plus one `0.9`-confidence negative
observation per detected misconception and one `0.85`-confidence
positive observation per restatement — with the table confidence of the
session's state at collection time attached to every turn's
comprehension observation, not the state the turn occurred in. -/
theorem C8_close_observations (s : Session) :
    getObservations s = specCloseObservations s := by
  rw [getObservations, specCloseObservations]
  induction s.turns with
  | nil => rfl
  | cons t ts ih =>
      rw [List.flatMap_cons, List.filter_cons]
      cases hu : decide (t.role = "user") && t.analysis.isSome with
      | true =>
          rw [if_pos (by simp [hu]), List.flatMap_cons, ih]
          have hrole : t.role = "user" := by
            have := (Bool.and_eq_true _ _).mp hu
            exact of_decide_eq_true this.1
          obtain ⟨a, ha⟩ := Option.isSome_iff_exists.mp ((Bool.and_eq_true _ _).mp hu).2
          rw [turnObservations, if_pos hrole, specTurnObs, ha]
          simp
      | false =>
          rw [if_neg (by simp [hu]), ih]
          have : turnObservations s.concept (stateConfidence s.state) t = [] := by
            rw [Bool.and_eq_false_iff] at hu
            rcases hu with hu | hu
            · rw [turnObservations, if_neg (by simpa using hu)]
            · have ha : t.analysis = none := Option.not_isSome_iff_eq_none.mp (by simp [hu])
              rw [turnObservations, ha]
              split <;> rfl
          rw [this, List.nil_append]

/-- A high-comprehension user-turn analysis used in the trace below. -/
def c8a : Analysis :=
  { comprehension := some (9/10)
    restatedInOwnWords := false
    remainingConfusion := some "rate of change"
    misconceptionDetected := none
    engagementLevel := "high" }

/-- Trace step: opening agent turn, then `initiating → exploring`. -/
def c8s2 : Session :=
  advanceState (addAgentTurn (newSession "s1" "u1" "hyp" "derivatives") "opening") 0

/-- First user turn — it occurs while the session is in `exploring`. -/
def c8s3 : Session := addUserTurn c8s2 "maybe the slope" (some c8a)

/-- Step `exploring → explaining`, then the explanation agent turn. -/
def c8s5 : Session := addAgentTurn (advanceState c8s3 0) "explanation"

/-- Second user turn — it occurs while the session is in `explaining`. -/
def c8s6 : Session := addUserTurn c8s5 "I see it now" (some c8a)

/-- Step `explaining → checking`. -/
def c8s7 : Session := advanceState c8s6 0

/-- Third user turn — it occurs while the session is in `checking`. -/
def c8s8 : Session := addUserTurn c8s7 "it is the rate of change" (some c8a)

/-- The closing streak fires: `checking → closing`. -/
def c8Final : Session := advanceState c8s8 0

/-- Counterexample for C8: The claim as stated is false: in this closed
session the three user turns occurred in `exploring`, `explaining` and
`checking` (per-state table values `0.3`, `0.5`, `0.85`), yet
`get_observations` attaches confidence `0.8` — the table value of the
close-time state — to every one of them. -/
theorem C8_counterexample :
    c8s2.state = .exploring ∧
    c8s5.state = .explaining ∧
    c8s7.state = .checking ∧
    c8Final.state = .closing ∧
    (getObservations c8Final).map (fun o => o.confidence) = [4/5, 4/5, 4/5] ∧
    [stateConfidence .exploring, stateConfidence .explaining, stateConfidence .checking]
      = [3/10, 1/2, 17/20] ∧
    (4/5 : ℚ) ≠ 3/10 := by
  have hne1 : ("rate of change" : String) ≠ "" := by decide
  have hne2 : ("agent" : String) ≠ "user" := by decide
  have e2 : c8s2 =
      { sessionId := "s1", userId := "u1",
        turns := [⟨"agent", "opening", none⟩],
        state := .exploring,
        confusionModel := ⟨"hyp", "", [], [], []⟩,
        comprehensionSignals := [], maxTurns := 10, concept := "derivatives" } := by
    norm_num [c8s2, advanceState, addAgentTurn, newSession, getNextState,
      shouldClose, lastSlice, MAX_DIALOGUE_TURNS, MAX_DIALOGUE_DURATION_SECONDS,
      CLOSING_COMPREHENSION_STREAK, CLOSING_COMPREHENSION_THRESHOLD]
  have e3 : c8s3 =
      { sessionId := "s1", userId := "u1",
        turns := [⟨"agent", "opening", none⟩, ⟨"user", "maybe the slope", some c8a⟩],
        state := .exploring,
        confusionModel := ⟨"hyp", "rate of change", [], [], []⟩,
        comprehensionSignals := [9/10], maxTurns := 10, concept := "derivatives" } := by
    simp only [c8s3, e2]
    norm_num [addUserTurn, c8a, truthyStr, hne1]
  have e5 : c8s5 =
      { sessionId := "s1", userId := "u1",
        turns := [⟨"agent", "opening", none⟩, ⟨"user", "maybe the slope", some c8a⟩,
                  ⟨"agent", "explanation", none⟩],
        state := .explaining,
        confusionModel := ⟨"hyp", "rate of change", [], [], []⟩,
        comprehensionSignals := [9/10], maxTurns := 10, concept := "derivatives" } := by
    simp only [c8s5, e3]
    norm_num [advanceState, addAgentTurn, getNextState, shouldClose, lastSlice,
      MAX_DIALOGUE_TURNS, MAX_DIALOGUE_DURATION_SECONDS,
      CLOSING_COMPREHENSION_STREAK, CLOSING_COMPREHENSION_THRESHOLD, hne1]
  have e6 : c8s6 =
      { sessionId := "s1", userId := "u1",
        turns := [⟨"agent", "opening", none⟩, ⟨"user", "maybe the slope", some c8a⟩,
                  ⟨"agent", "explanation", none⟩, ⟨"user", "I see it now", some c8a⟩],
        state := .explaining,
        confusionModel := ⟨"hyp", "rate of change", [], [], []⟩,
        comprehensionSignals := [9/10, 9/10], maxTurns := 10, concept := "derivatives" } := by
    simp only [c8s6, e5]
    norm_num [addUserTurn, c8a, truthyStr, hne1]
  have e7 : c8s7 =
      { sessionId := "s1", userId := "u1",
        turns := [⟨"agent", "opening", none⟩, ⟨"user", "maybe the slope", some c8a⟩,
                  ⟨"agent", "explanation", none⟩, ⟨"user", "I see it now", some c8a⟩],
        state := .checking,
        confusionModel := ⟨"hyp", "rate of change", [], [], []⟩,
        comprehensionSignals := [9/10, 9/10], maxTurns := 10, concept := "derivatives" } := by
    simp only [c8s7, e6]
    norm_num [advanceState, getNextState, shouldClose, lastSlice,
      MAX_DIALOGUE_TURNS, MAX_DIALOGUE_DURATION_SECONDS,
      CLOSING_COMPREHENSION_STREAK, CLOSING_COMPREHENSION_THRESHOLD]
  have e8 : c8s8 =
      { sessionId := "s1", userId := "u1",
        turns := [⟨"agent", "opening", none⟩, ⟨"user", "maybe the slope", some c8a⟩,
                  ⟨"agent", "explanation", none⟩, ⟨"user", "I see it now", some c8a⟩,
                  ⟨"user", "it is the rate of change", some c8a⟩],
        state := .checking,
        confusionModel := ⟨"hyp", "rate of change", [], [], []⟩,
        comprehensionSignals := [9/10, 9/10, 9/10], maxTurns := 10,
        concept := "derivatives" } := by
    simp only [c8s8, e7]
    norm_num [addUserTurn, c8a, truthyStr, hne1]
  have ef : c8Final =
      { sessionId := "s1", userId := "u1",
        turns := [⟨"agent", "opening", none⟩, ⟨"user", "maybe the slope", some c8a⟩,
                  ⟨"agent", "explanation", none⟩, ⟨"user", "I see it now", some c8a⟩,
                  ⟨"user", "it is the rate of change", some c8a⟩],
        state := .closing,
        confusionModel := ⟨"hyp", "rate of change", [], [], []⟩,
        comprehensionSignals := [9/10, 9/10, 9/10], maxTurns := 10,
        concept := "derivatives" } := by
    simp only [c8Final, e8]
    norm_num [advanceState, getNextState, shouldClose, lastSlice,
      MAX_DIALOGUE_TURNS, MAX_DIALOGUE_DURATION_SECONDS,
      CLOSING_COMPREHENSION_STREAK, CLOSING_COMPREHENSION_THRESHOLD]
  have hobs : (getObservations c8Final).map (fun o => o.confidence)
      = [4/5, 4/5, 4/5] := by
    rw [ef]
    norm_num [getObservations, turnObservations, stateConfidence, c8a,
      truthyStr, hne2]
  exact ⟨by rw [e2], by rw [e5], by rw [e7], by rw [ef], hobs,
    by norm_num [stateConfidence], by norm_num⟩

/-! ## Orchestrator scheduling loop (`agents/orchestrator.py`) -/

/-- Orchestrator state relevant to scheduling: the active-dialogue flag
and the last-intervention timestamp (initially `0.0`). -/
structure OrchState where
  activeDialogue : Bool
  lastIntervention : ℚ
  deriving DecidableEq, Repr

/-- One event processed by the orchestrator loop: a `poll_context` tick
carrying the wall clock, the parsed snapshot and the payment-tier check
result, or a `SessionReport` arrival (which clears the active
dialogue). -/
inductive OrchEvent where
  | poll (now : ℚ) (ctx : WorkContext) (canIntervene : Bool)
  | sessionReport

/-- One step of the orchestrator loop (`poll_context` lines 145–190 and
`handle_session_report`): an active dialogue redirects the tick to reply
checking; a non-intervening assessment, a failed payment-tier check or
an unexpired cooldown all return without dispatching; otherwise
`last_intervention` is set to `now` and the intervention is dispatched
(activating a dialogue when it is routed to the deep diver). -/
def orchStep (st : OrchState) : OrchEvent → OrchState × Option ℚ
  | .sessionReport => ({ st with activeDialogue := false }, none)
  | .poll now ctx canIntervene =>
    if st.activeDialogue then (st, none)
    else if ¬shouldIntervene ctx then (st, none)
    else if ¬canIntervene then (st, none)
    else if now - st.lastIntervention < INTERVENTION_COOLDOWN_SECONDS then (st, none)
    else
      let st := { st with lastIntervention := now }
      let st := if classify ctx = "CONCEPTUAL_WHY" then
          { st with activeDialogue := true }
        else st
      (st, some now)

/-- Run the loop over a list of events, collecting dispatch times. -/
def orchRun (st : OrchState) : List OrchEvent → List ℚ
  | [] => []
  | e :: es =>
      match orchStep st e with
      | (st1, some t) => t :: orchRun st1 es
      | (st1, none) => orchRun st1 es

/-- The dispatch times of a full run from the startup state. -/
def dispatchTimes (es : List OrchEvent) : List ℚ :=
  orchRun ⟨false, 0⟩ es

/-! ## Claim C5: the cooldown is never violated -/

theorem orchStep_fire_bounds (st : OrchState) (e : OrchEvent) (t : ℚ)
    (h : (orchStep st e).2 = some t) :
    st.lastIntervention + INTERVENTION_COOLDOWN_SECONDS ≤ t ∧
    (orchStep st e).1.lastIntervention = t := by
  cases e with
  | sessionReport => simp [orchStep] at h
  | poll now ctx canIntervene =>
      by_cases h1 : st.activeDialogue
      · simp [orchStep, h1] at h
      · by_cases h2 : shouldIntervene ctx
        · by_cases h3 : canIntervene
          · by_cases h4 : now - st.lastIntervention < INTERVENTION_COOLDOWN_SECONDS
            · simp [orchStep, h1, h2, h3, h4] at h
            · have ht : t = now := by
                simp [orchStep, h1, h2, h3, h4] at h
                exact h.symm
              subst ht
              constructor
              · linarith [not_lt.mp h4]
              · by_cases h5 : classify ctx = "CONCEPTUAL_WHY" <;>
                  simp [orchStep, h1, h2, h3, h4, h5]
          · simp [orchStep, h1, h2, h3] at h
        · simp [orchStep, h1, h2] at h

theorem orchStep_nofire_state (st : OrchState) (e : OrchEvent)
    (h : (orchStep st e).2 = none) :
    (orchStep st e).1.lastIntervention = st.lastIntervention := by
  cases e with
  | sessionReport => rfl
  | poll now ctx canIntervene =>
      by_cases h1 : st.activeDialogue
      · simp [orchStep, h1]
      · by_cases h2 : shouldIntervene ctx
        · by_cases h3 : canIntervene
          · by_cases h4 : now - st.lastIntervention < INTERVENTION_COOLDOWN_SECONDS
            · simp [orchStep, h1, h2, h3, h4]
            · simp [orchStep, h1, h2, h3, h4] at h
          · simp [orchStep, h1, h2, h3]
        · simp [orchStep, h1, h2]

theorem orchRun_spacing (es : List OrchEvent) (st : OrchState) :
    (∀ t ∈ orchRun st es,
        st.lastIntervention + INTERVENTION_COOLDOWN_SECONDS ≤ t) ∧
    List.Pairwise (fun a b => a + INTERVENTION_COOLDOWN_SECONDS ≤ b)
      (orchRun st es) := by
  induction es generalizing st with
  | nil => simp [orchRun]
  | cons e es ih =>
      rw [orchRun]
      cases hstep : orchStep st e with
      | mk st1 fired =>
          cases fired with
          | none =>
              have hlast : st1.lastIntervention = st.lastIntervention := by
                have := orchStep_nofire_state st e (by rw [hstep])
                rwa [hstep] at this
              refine ⟨fun t ht => ?_, (ih st1).2⟩
              have := (ih st1).1 t ht
              rwa [hlast] at this
          | some t =>
              have hb := orchStep_fire_bounds st e t (by rw [hstep])
              rw [hstep] at hb
              have hmem : ∀ x ∈ orchRun st1 es,
                  t + INTERVENTION_COOLDOWN_SECONDS ≤ x := by
                intro x hx
                have := (ih st1).1 x hx
                rwa [hb.2] at this
              have hcool : (0 : ℚ) < INTERVENTION_COOLDOWN_SECONDS := by
                norm_num [INTERVENTION_COOLDOWN_SECONDS]
              refine ⟨?_, ?_⟩
              · intro x hx
                rcases List.mem_cons.mp hx with rfl | hx'
                · exact hb.1
                · have := hmem x hx'
                  linarith [hb.1]
              · exact List.pairwise_cons.mpr ⟨hmem, (ih st1).2⟩

/-- Claim C5: In any run of the orchestrator loop from startup, any two
dispatched interventions — not only consecutive ones — are at least
`INTERVENTION_COOLDOWN_SECONDS` apart: after a dispatch at time `t`, no
second dispatch happens before `t` plus the cooldown, no matter how many
qualifying snapshots arrive in between. -/
theorem C5_cooldown (es : List OrchEvent) :
    List.Pairwise (fun a b => a + INTERVENTION_COOLDOWN_SECONDS ≤ b)
      (dispatchTimes es) :=
  (orchRun_spacing es ⟨false, 0⟩).2
